import Mathlib

/-!
Shallow embedding of the record-extraction engine of the siga-helper
extension: the transcript (PDF) adapter and the portal adapter of
PagesDataParser, their token-stream cursor, field grammars, history
normalization, survey answer sniffing, and the per-URL fetch cache.
Pure functions are translated directly from the JavaScript source;
promise rejection is modelled with Except, and the one external mutable
resource (the fetch cache) is modelled by explicit state passing.
-/

/-! ## JavaScript string primitives used by the parsers -/

/-- Character-level model of JavaScript toUpperCase, restricted to the
characters that occur in this domain: ASCII letters plus the accented
Spanish letters appearing in the source literals. -/
def jsUpperChar (c : Char) : Char :=
  if c.isLower then c.toUpper
  else if c = 'á' then 'Á'
  else if c = 'é' then 'É'
  else if c = 'í' then 'Í'
  else if c = 'ó' then 'Ó'
  else if c = 'ú' then 'Ú'
  else if c = 'ñ' then 'Ñ'
  else c

/-- Character-level model of JavaScript toLowerCase (same character range
as jsUpperChar). -/
def jsLowerChar (c : Char) : Char :=
  if c.isUpper then c.toLower
  else if c = 'Á' then 'á'
  else if c = 'É' then 'é'
  else if c = 'Í' then 'í'
  else if c = 'Ó' then 'ó'
  else if c = 'Ú' then 'ú'
  else if c = 'Ñ' then 'ñ'
  else c

def jsToUpperCase (s : String) : String := String.mk (s.data.map jsUpperChar)

def jsToLowerCase (s : String) : String := String.mk (s.data.map jsLowerChar)

/-- Whether the first list is an initial segment of the second. -/
def listStartsWith : List Char → List Char → Bool
  | [], _ => true
  | _ :: _, [] => false
  | p :: ps, c :: cs => p = c && listStartsWith ps cs

def replaceFirstAux (pat repl : List Char) : List Char → List Char
  | [] => []
  | c :: cs =>
    if listStartsWith pat (c :: cs) then repl ++ (c :: cs).drop pat.length
    else c :: replaceFirstAux pat repl cs

/-- Model of JavaScript String.prototype.replace with a plain string
pattern: only the first occurrence is replaced.  (The sole unmodelled
edge is an empty pattern against an empty string, which never occurs in
the source: both patterns used are nonempty literals.) -/
def jsReplaceFirst (s pat repl : String) : String :=
  String.mk (replaceFirstAux pat.data repl.data s.data)

/-- Model of JavaScript String.prototype.trim: strip whitespace from both
ends. -/
def jsTrim (s : String) : String :=
  String.mk (((s.data.dropWhile (·.isWhitespace)).reverse.dropWhile (·.isWhitespace)).reverse)

/-- Model of JavaScript String.prototype.endsWith with a plain string
argument. -/
def jsEndsWith (s suffix : String) : Bool :=
  listStartsWith suffix.data.reverse s.data.reverse

def jsSplitCharAux (sep : Char) : List Char → List Char → List String
  | acc, [] => [String.mk acc.reverse]
  | acc, c :: cs =>
    if c = sep then String.mk acc.reverse :: jsSplitCharAux sep [] cs
    else jsSplitCharAux sep (c :: acc) cs

/-- Model of JavaScript String.prototype.split with a one-character
separator: the list of the separated fields, with empty fields kept. -/
def jsSplitChar (s : String) (sep : Char) : List String :=
  jsSplitCharAux sep [] s.data

def isHexDigitChar (c : Char) : Bool :=
  c.isDigit || ('a' ≤ c && c ≤ 'f') || ('A' ≤ c && c ≤ 'F')

def hexDigitVal (c : Char) : Nat :=
  if c.isDigit then c.toNat - 48
  else if 'a' ≤ c && c ≤ 'f' then c.toNat - 97 + 10
  else if 'A' ≤ c && c ≤ 'F' then c.toNat - 65 + 10
  else 0

/-- Model of JavaScript parseInt with no radix argument: skip leading
whitespace, read an optional sign, treat a 0x or 0X prefix as hexadecimal,
consume the longest digit run, and produce NaN (here: none) when no digit
was consumed. -/
def jsParseInt (s : String) : Option Int :=
  let cs := s.data.dropWhile (·.isWhitespace)
  let sgncs : Int × List Char :=
    match cs with
    | '-' :: r => (-1, r)
    | '+' :: r => (1, r)
    | r => (1, r)
  let baseds : Nat × List Char :=
    match sgncs.2 with
    | '0' :: 'x' :: r => (16, r.takeWhile isHexDigitChar)
    | '0' :: 'X' :: r => (16, r.takeWhile isHexDigitChar)
    | r => (10, r.takeWhile (·.isDigit))
  if baseds.2.isEmpty then none
  else some (sgncs.1 * Int.ofNat (baseds.2.foldl (fun acc c => acc * baseds.1 + hexDigitVal c) 0))

/-! ## The per-URL fetch cache

Both adapters keep one url-keyed object CACHED_PAGE_CONTENTS.  The portal
getPageContents (and the textually identical transcript fetchPageContents)
caches response text strings; the transcript fetchPdfContents caches the
extracted pdf text item arrays.  The cache-hit test is JavaScript
truthiness of the stored value. -/

inductive PageContent where
  | text (s : String)
  | pdfItems (items : List String)
deriving DecidableEq, Repr

/-- JavaScript truthiness of a cached value: an empty response text is
falsy, a missing entry is falsy (handled at the lookup), and every array,
even an empty one, is truthy. -/
def jsTruthy : PageContent → Bool
  | .text s => s ≠ ""
  | .pdfItems _ => true

def cacheLookup : List (String × PageContent) → String → Option PageContent
  | [], _ => none
  | (u, v) :: rest, url => if u = url then some v else cacheLookup rest url

def cacheStore : List (String × PageContent) → String → PageContent → List (String × PageContent)
  | [], url, v => [(url, v)]
  | (u, w) :: rest, url, v =>
    if u = url then (u, v) :: rest else (u, w) :: cacheStore rest url v

/-- Result of one fetch call: the resolved content, the cache afterwards,
and whether a network request was issued. -/
structure FetchResult where
  content : PageContent
  cache : List (String × PageContent)
  requested : Bool
deriving DecidableEq, Repr

/-- Portal getPageContents: if the cached value for the url is truthy,
resolve it without a request; otherwise issue the request and store the
response text. -/
def getPageContents (net : String → String) (cache : List (String × PageContent))
    (url : String) : FetchResult :=
  match cacheLookup cache url with
  | some v =>
    if jsTruthy v then ⟨v, cache, false⟩
    else ⟨.text (net url), cacheStore cache url (.text (net url)), true⟩
  | none => ⟨.text (net url), cacheStore cache url (.text (net url)), true⟩

/-- Transcript fetchPageContents is textually identical to the portal
getPageContents. -/
def fetchPageContents : (String → String) → List (String × PageContent) → String → FetchResult :=
  getPageContents

/-- Transcript fetchPdfContents: same truthiness-guarded memoization, but
the stored value is the array of extracted pdf text items. -/
def fetchPdfContents (net : String → List String) (cache : List (String × PageContent))
    (url : String) : FetchResult :=
  match cacheLookup cache url with
  | some v =>
    if jsTruthy v then ⟨v, cache, false⟩
    else ⟨.pdfItems (net url), cacheStore cache url (.pdfItems (net url)), true⟩
  | none => ⟨.pdfItems (net url), cacheStore cache url (.pdfItems (net url)), true⟩

/-! ## History normalization (getPassedCourses, getStartYear) -/

inductive HType where
  | SIGNED
  | PASSED
deriving DecidableEq, Repr

/-- Date parsed from a dd/mm/yyyy history row; JavaScript Date ordering by
timestamp agrees with lexicographic ordering of (year, month, day). -/
structure HDate where
  day : Nat
  month : Nat
  year : Nat
deriving DecidableEq, Repr

/-- One retained academic-history row: parseAcademicHistory keeps only
rows whose grade denotes an approved outcome, each mapped through the
status-keyword table to SIGNED or PASSED together with its parsed date. -/
structure HistoryEntry where
  courseCode : String
  type : HType
  date : HDate
deriving DecidableEq, Repr

structure PassedCourses where
  passed : List String
  signed : List String
deriving DecidableEq, Repr

/-- Model of the JavaScript spread-of-Set idiom: keeps the first
occurrence of each element, in insertion order. -/
def setDedupAux (seen : List String) : List String → List String
  | [] => []
  | x :: xs => if x ∈ seen then setDedupAux seen xs else x :: setDedupAux (x :: seen) xs

def setDedup (l : List String) : List String := setDedupAux [] l

/-- Transcript getPassedCourses: signed is the deduplicated list of every
retained course code (both types); passed is the list of codes of the
PASSED-typed rows, in row order, with no deduplication. -/
def Transcript.getPassedCourses (coursesHistory : List HistoryEntry) : PassedCourses :=
  { passed := (coursesHistory.filter (fun course => course.type = HType.PASSED)).map
      (fun course => course.courseCode),
    signed := setDedup (coursesHistory.map (fun course => course.courseCode)) }

/-- One row of the portal history table /alu/hist.do; the fields are the
trimmed texts of cells 0 (kind), 1 (status) and 3 (course code). -/
structure PortalHistRow where
  td0 : String
  td1 : String
  td3 : String
deriving DecidableEq, Repr

/-- The filterByKind closure of the portal getPassedCourses: rows of the
given kind whose status cell is Aprob, mapped to their course-code cell. -/
def Portal.filterByKind (rows : List PortalHistRow) (kind : String) : List String :=
  ((rows.filter (fun tr => jsTrim tr.td0 = kind)).filter
      (fun tr => jsTrim tr.td1 = "Aprob")).map (fun tr => jsTrim tr.td3)

/-- Portal getPassedCourses: passed is filterByKind "Final" (no
deduplication); signed is the deduplicated concatenation of passed and
filterByKind "Cursada". -/
def Portal.getPassedCourses (rows : List PortalHistRow) : PassedCourses :=
  { passed := Portal.filterByKind rows "Final",
    signed := setDedup (Portal.filterByKind rows "Final" ++ Portal.filterByKind rows "Cursada") }

/-! ## Transcript (PDF) adapter: getClassSchedules -/

/-- Modelled from the spec: the ScheduleSlot day enumeration produced by
the schedule decoder utils.getSchedulesFromString, which lives outside
src; the claims only pass the decoder around as an opaque collaborator,
so only its result type is needed.  Sunday is not a valid day. -/
inductive Weekday where
  | monday
  | tuesday
  | wednesday
  | thursday
  | friday
  | saturday
deriving DecidableEq, Repr

/-- Modelled from the spec: the three daily time bands of the scheduling
grammar. -/
inductive Turn where
  | morning
  | afternoon
  | night
deriving DecidableEq, Repr

/-- Modelled from the spec: one decoded schedule slot. -/
structure ScheduleSlot where
  day : Weekday
  turn : Turn
  startSlot : Nat
  endSlot : Nat
deriving DecidableEq, Repr

/-- One parsed row of the enrollment receipt / enrollment table. -/
structure ClassSchedule where
  year : Nat
  quarter : String
  courseName : String
  classCode : String
  courseCode : String
  branch : Option String
  schedules : Option (List ScheduleSlot)
deriving DecidableEq, Repr

/-- Failure values thrown by the transcript parser.  The JavaScript code
throws message strings; each constructor carries exactly the data
interpolated into the corresponding message.  missingToken models a read
past the end of the extracted items (in JavaScript the undefined value
makes a later string operation or parse fail); fuelOut is the
out-of-fuel case of the loop model and is unreachable for the fuel the
entry point supplies. -/
inductive PdfErr where
  | invalidContents (idx : Nat) (contents : List String)
  | studentIdAndName (tok : Option String) (contents : List String)
  | courseCode (tok : Option String) (contents : List String)
  | classTime (tok : Option String) (contents : List String)
  | missingToken (idx : Nat)
  | fuelOut (idx : Nat)
deriving DecidableEq, Repr

/-- The validateExpectedContents closure: consume one token per expected
literal, in order, and throw on the first position whose token differs
(or is missing).  The thrown error carries the failing cursor index and
the whole contents array, exactly as the interpolated message does; the
expected literal is not part of it.  The cursor is the pair of the
absolute index i and the remaining suffix rest of contents. -/
def validateExpectedContents (contents : List String) :
    List String → Nat → List String → Except PdfErr (Nat × List String)
  | [], i, rest => .ok (i, rest)
  | expectedContent :: expectedRest, i, rest =>
    match rest with
    | [] => .error (.invalidContents i contents)
    | tok :: rest' =>
      if tok = expectedContent then
        validateExpectedContents contents expectedRest (i + 1) rest'
      else .error (.invalidContents i contents)

/-- The courseCode grammar: exactly six decimal digits. -/
def isSixDigits (s : String) : Bool :=
  s.data.length == 6 && s.data.all (·.isDigit)

def fourDigitYear : List Char → Option Nat
  | [d1, d2, d3, d4] =>
    if d1.isDigit && d2.isDigit && d3.isDigit && d4.isDigit then
      some ((((d1.toNat - 48) * 10 + (d2.toNat - 48)) * 10 + (d3.toNat - 48)) * 10
        + (d4.toNat - 48))
    else none
  | _ => none

/-- The year-and-quarter grammar of the transcript: 1er Cuat YYYY,
2do Cuat YYYY or Anual YYYY (the regex, taken literally, also accepts the
crossed suffix forms 1do and 2er).  Returns the normalized quarter
(A, 1C or 2C) and the year. -/
def yqParse (s : String) : Option (String × Nat) :=
  match s.data with
  | 'A' :: 'n' :: 'u' :: 'a' :: 'l' :: ' ' :: rest =>
    (fourDigitYear rest).map (fun year => ("A", year))
  | d :: s1 :: s2 :: ' ' :: 'C' :: 'u' :: 'a' :: 't' :: ' ' :: rest =>
    if (d = '1' || d = '2') && ((s1 = 'e' && s2 = 'r') || (s1 = 'd' && s2 = 'o')) then
      (fourDigitYear rest).map (fun year => (String.mk [d, 'C'], year))
    else none
  | _ => none

/-- Continuation of the studentId-and-name grammar after the thousands
dot: three digits, a dash, an optional check digit, a space, then the
free-text name. -/
def sidAfterDot : List Char → Option (List Char × String)
  | '.' :: d1 :: d2 :: d3 :: '-' :: rest =>
    if d1.isDigit && d2.isDigit && d3.isDigit then
      match rest with
      | ' ' :: name => some (['.', d1, d2, d3, '-'], String.mk name)
      | c :: ' ' :: name =>
        if c.isDigit then some (['.', d1, d2, d3, '-', c], String.mk name) else none
      | _ => none
    else none
  | _ => none

/-- The studentId-and-name grammar of the receipt header: two or three
digits (greedy), a dot, three digits, a dash, an optional check digit, a
space and the name. -/
def studentIdNameParse (s : String) : Option (String × String) :=
  match s.data with
  | a :: b :: c :: rest =>
    if a.isDigit && b.isDigit then
      if c.isDigit then
        match sidAfterDot rest with
        | some (idTail, name) => some (String.mk ([a, b, c] ++ idTail), name)
        | none => none
      else
        match sidAfterDot (c :: rest) with
        | some (idTail, name) => some (String.mk ([a, b] ++ idTail), name)
        | none => none
    else none
  | _ => none

/-- The branch cell normalization: uppercase, replace the first space
with an underscore, rename CAMPUS_VIRTUAL to AULA_VIRTUAL (first
occurrence). -/
def branchNormalize (s : String) : String :=
  jsReplaceFirst (jsReplaceFirst (jsToUpperCase s) " " "_") "CAMPUS_VIRTUAL" "AULA_VIRTUAL"

/-- The schedule strings that short-circuit to a null schedules field:
the three Sunday turn triples and the explicit not-defined literal. -/
def sundaySentinels : List String := ["Do(m)0:0", "Do(t)0:0", "Do(n)0:0", "Sin definir"]

/-- Fields of one record after the year-and-quarter field: class code
(uppercased), branch (normalized; ESCUELA consumes one validated
continuation token and renames to PIÑERO; SIN_DESIGNAR maps to null), a
skipped class-room token, and the schedule string (null for the sentinel
strings, otherwise handed to the decoder).  Returns the record plus the
cursor after it. -/
def Transcript.parseRecordTail (decoder : String → Option (List ScheduleSlot))
    (contents : List String) (year : Nat) (quarter courseName courseCode : String)
    (i : Nat) (rest : List String) : Except PdfErr (ClassSchedule × Nat × List String) :=
  match rest with
  | [] => .error (.missingToken i)
  | classCodeRaw :: rest1 =>
    match rest1 with
    | [] => .error (.missingToken (i + 1))
    | branchRaw :: rest2 =>
      match (if branchNormalize branchRaw = "ESCUELA" then
          match validateExpectedContents contents ["Técnica -"] (i + 2) rest2 with
          | .error e => .error e
          | .ok p => .ok ("PIÑERO", p.1, p.2)
        else .ok (branchNormalize branchRaw, i + 2, rest2) :
          Except PdfErr (String × Nat × List String)) with
      | .error e => .error e
      | .ok (branchName, i2, rest3) =>
        match rest3 with
        | [] => .error (.missingToken (i2 + 1))
        | _classRoom :: rest4 =>
          match rest4 with
          | [] => .error (.missingToken (i2 + 1))
          | schedulesStr :: rest5 =>
            .ok ({ year := year, quarter := quarter, courseName := courseName,
                   classCode := jsToUpperCase classCodeRaw, courseCode := courseCode,
                   branch := if branchName = "SIN_DESIGNAR" then none else some branchName,
                   schedules := if schedulesStr ∈ sundaySentinels then none
                                else decoder schedulesStr },
                 i2 + 2, rest5)

/-- The record loop of the transcript getClassSchedules: stop on the
trailing marker, otherwise read course code, course name (re-consuming
one extra token when the token after the name fails the year-and-quarter
grammar, at most once), year and quarter, and the remaining fields of the
record.  fuel bounds the recursion; the entry point passes more fuel than
the loop can consume, every iteration using at least six tokens. -/
def Transcript.classSchedLoop (decoder : String → Option (List ScheduleSlot))
    (contents : List String) : Nat → Nat → List String → Except PdfErr (List ClassSchedule)
  | 0, i, _ => .error (.fuelOut i)
  | fuel + 1, i, rest =>
    match rest with
    | [] => .error (.courseCode none contents)
    | tok :: rest1 =>
      if tok = "Firma y Sello Departamento" then .ok []
      else if isSixDigits tok then
        match rest1 with
        | [] => .error (.classTime none contents)
        | courseName0 :: rest2 =>
          match rest2 with
          | [] => .error (.classTime none contents)
          | yq1 :: rest3 =>
            match yqParse yq1 with
            | some qy =>
              match Transcript.parseRecordTail decoder contents qy.2 qy.1 courseName0 tok
                  (i + 3) rest3 with
              | .error e => .error e
              | .ok (rec, i2, rest') =>
                match Transcript.classSchedLoop decoder contents fuel i2 rest' with
                | .error e => .error e
                | .ok recs => .ok (rec :: recs)
            | none =>
              match rest3 with
              | [] => .error (.classTime none contents)
              | yq2 :: rest4 =>
                match yqParse yq2 with
                | none => .error (.classTime (some yq2) contents)
                | some qy =>
                  match Transcript.parseRecordTail decoder contents qy.2 qy.1
                      (courseName0 ++ " " ++ yq1) tok (i + 4) rest4 with
                  | .error e => .error e
                  | .ok (rec, i2, rest') =>
                    match Transcript.classSchedLoop decoder contents fuel i2 rest' with
                    | .error e => .error e
                    | .ok recs => .ok (rec :: recs)
      else .error (.courseCode (some tok) contents)

/-- Transcript getClassSchedules over the extracted pdf text items: an
exactly-one-empty-token document means no enrollments and resolves the
empty list; otherwise the fixed two-token header, the student id and
name, and the fixed seven column headers are validated, and the record
loop runs until the trailing marker. -/
def Transcript.getClassSchedules (decoder : String → Option (List ScheduleSlot))
    (contents : List String) : Except PdfErr (List ClassSchedule) :=
  if contents = [""] then .ok []
  else
    match validateExpectedContents contents
        ["", "COMPROBANTE DE INSCRIPCIÓN A CURSADA"] 0 contents with
    | .error e => .error e
    | .ok (i, rest) =>
      match rest with
      | [] => .error (.studentIdAndName none contents)
      | studentIdAndName :: rest1 =>
        match studentIdNameParse studentIdAndName with
        | none => .error (.studentIdAndName (some studentIdAndName) contents)
        | some _ =>
          match validateExpectedContents contents
              ["Código", "Actividad", "Período", "Comisión", "Ubicación", "Aula", "Horario"]
              (i + 1) rest1 with
          | .error e => .error e
          | .ok (j, rest2) =>
            Transcript.classSchedLoop decoder contents (rest2.length + 1) j rest2

/-! ## getStartYear (both variants) and the portal getStudentId -/

/-- Sort key under which JavaScript Date subtraction orders the parsed
dd/mm/yyyy history dates. -/
def dateKey (d : HDate) : Nat := d.year * 10000 + d.month * 100 + d.day

def insertDateAsc (d : HDate) : List HDate → List HDate
  | [] => [d]
  | e :: es => if dateKey d ≤ dateKey e then d :: e :: es else e :: insertDateAsc d es

/-- Ascending sort by date value, modelling sort with the numeric
comparator over Date values. -/
def sortDatesAsc : List HDate → List HDate
  | [] => []
  | d :: ds => insertDateAsc d (sortDatesAsc ds)

/-- Transcript getStartYear: on a successful history parse, the year of
the earliest retained date (none when the history is empty, modelling the
undefined element of an empty array); on any upstream failure the catch
handler reports the error and resolves null (here: ok none).  The call
never rejects. -/
def Transcript.getStartYear (history : Except PdfErr (List HistoryEntry)) :
    Except PdfErr (Option Nat) :=
  match history with
  | .error _ => .ok none
  | .ok courseHistory =>
    .ok (((sortDatesAsc (courseHistory.map (fun course => course.date))).map
      (fun d => d.year)).head?)

/-- Failure values of the portal adapter: the distinguished LoggedOutError
subtype and the plain Error used for malformed content.  The JavaScript
messages interpolate the response text; the constructors carry a fixed
message. -/
inductive PortalErr where
  | loggedOut (msg : String)
  | malformed (msg : String)
deriving DecidableEq, Repr

/-- Portal getStartYear: the third slash-separated field of the first
cell of the last row of the first table (undefined, here none, when the
text has fewer than three fields); on any upstream failure the catch
handler reports the error and resolves null.  The call never rejects. -/
def Portal.getStartYear (fetched : Except PortalErr String) :
    Except PortalErr (Option String) :=
  match fetched with
  | .error _ => .ok none
  | .ok startDate => .ok ((jsSplitChar startDate '/')[2]?)

/-- Portal getStudentId over the two page texts it inspects: the student
id element text, and the text of the session-status element.  An empty id
with the session-expired text (after trim) fails with the LoggedOutError
subtype and is not reported to the logger; an empty id otherwise fails
with a plain error and is reported; a nonempty id resolves.  The Bool is
whether trackError was invoked. -/
def Portal.getStudentId (studentIdText sessionDivText : String) :
    Except PortalErr String × Bool :=
  if studentIdText = "" then
    if jsTrim sessionDivText = "La sesión ha expirado" then
      (.error (.loggedOut "user has been logged out"), false)
    else
      (.error (.malformed "studentId missing from responseText"), true)
  else
    (.ok studentIdText, false)

/-! ## Survey answers (portal getTakenSurveys, getAnswersFromSurvey) -/

inductive AnswerType where
  | TEXT
  | PERCENTAGE
deriving DecidableEq, Repr

/-- A survey answer value: null, the free text, or the parsed integer. -/
inductive AnswerValue where
  | nullV
  | strV (s : String)
  | intV (n : Int)
deriving DecidableEq, Repr

structure SurveyAnswer where
  question : String
  type : AnswerType
  value : AnswerValue
deriving DecidableEq, Repr

/-- One answer row of the survey popup table: the trimmed question cell,
the trimmed text of the selected option (empty when no option is
selected), the raw label of the option with value 2, and the value of the
adjacent textarea (empty when blank or absent). -/
structure SurveyAnswerRow where
  question : String
  comboValue : String
  secondOption : String
  textareaVal : String
deriving DecidableEq, Repr

inductive SurveyErr where
  | unsupportedSecondOption (label : String)
deriving DecidableEq, Repr

/-- One row of getAnswersFromSurvey: unselected rows yield no answer; a
second option reading no opina (lowercased, trimmed) makes a TEXT answer
whose value is the textarea text or null when blank; a second option
ending in a percent sign makes a PERCENTAGE answer whose value is
parseInt of the selected text, or null when that is NaN; anything else
throws. -/
def Portal.parseAnswerRow (r : SurveyAnswerRow) : Except SurveyErr (Option SurveyAnswer) :=
  if r.comboValue = "" then .ok none
  else
    if jsTrim (jsToLowerCase r.secondOption) = "no opina" then
      .ok (some { question := r.question, type := .TEXT,
                  value := if r.textareaVal = "" then .nullV else .strV r.textareaVal })
    else if jsEndsWith (jsTrim (jsToLowerCase r.secondOption)) "%" then
      .ok (some { question := r.question, type := .PERCENTAGE,
                  value := match jsParseInt r.comboValue with
                           | none => .nullV
                           | some n => .intV n })
    else .error (.unsupportedSecondOption (jsTrim (jsToLowerCase r.secondOption)))

/-- The full answer-row scan: map each row and drop the empty results; a
thrown row rejects the whole call. -/
def Portal.getAnswersFromSurvey : List SurveyAnswerRow → Except SurveyErr (List SurveyAnswer)
  | [] => .ok []
  | r :: rs =>
    match Portal.parseAnswerRow r with
    | .error e => .error e
    | .ok none => Portal.getAnswersFromSurvey rs
    | .ok (some a) =>
      match Portal.getAnswersFromSurvey rs with
      | .error e => .error e
      | .ok rest => .ok (a :: rest)

/-! ## Helper lemmas -/

theorem cacheLookup_store_self (c : List (String × PageContent)) (url : String)
    (v : PageContent) : cacheLookup (cacheStore c url v) url = some v := by
  induction c with
  | nil => simp [cacheStore, cacheLookup]
  | cons p rest ih =>
    obtain ⟨u, w⟩ := p
    by_cases h : u = url
    · simp [cacheStore, cacheLookup, h]
    · simp [cacheStore, cacheLookup, h, ih]

theorem cacheLookup_store_other (c : List (String × PageContent)) (url url' : String)
    (v : PageContent) (h : url' ≠ url) :
    cacheLookup (cacheStore c url v) url' = cacheLookup c url' := by
  have h' : ¬ url = url' := fun hh => h hh.symm
  induction c with
  | nil => simp [cacheStore, cacheLookup, h']
  | cons p rest ih =>
    obtain ⟨u, w⟩ := p
    by_cases hu : u = url
    · subst hu
      simp [cacheStore, cacheLookup, h']
    · by_cases hu' : u = url'
      · subst hu'
        simp [cacheStore, cacheLookup, hu, h]
      · simp [cacheStore, cacheLookup, hu, hu', ih]

theorem mem_setDedupAux (x : String) :
    ∀ (l seen : List String), x ∈ setDedupAux seen l ↔ x ∈ l ∧ x ∉ seen := by
  intro l
  induction l with
  | nil => intro seen; simp [setDedupAux]
  | cons y ys ih =>
    intro seen
    by_cases h : y ∈ seen
    · rw [show setDedupAux seen (y :: ys) = setDedupAux seen ys from by
        simp [setDedupAux, h], ih]
      constructor
      · rintro ⟨hx, hs⟩
        exact ⟨List.mem_cons_of_mem _ hx, hs⟩
      · rintro ⟨hx, hs⟩
        rcases List.mem_cons.mp hx with rfl | hx
        · exact absurd h hs
        · exact ⟨hx, hs⟩
    · rw [show setDedupAux seen (y :: ys) = y :: setDedupAux (y :: seen) ys from by
        simp [setDedupAux, h]]
      constructor
      · intro hx
        rcases List.mem_cons.mp hx with rfl | hx
        · exact ⟨List.mem_cons_self _ _, h⟩
        · rcases (ih (y :: seen)).mp hx with ⟨hys, hns⟩
          exact ⟨List.mem_cons_of_mem _ hys, fun hs => hns (List.mem_cons_of_mem _ hs)⟩
      · rintro ⟨hx, hs⟩
        rcases List.mem_cons.mp hx with rfl | hx
        · exact List.mem_cons_self _ _
        · by_cases hxy : x = y
          · subst hxy; exact List.mem_cons_self _ _
          · refine List.mem_cons_of_mem _ ((ih (y :: seen)).mpr ⟨hx, ?_⟩)
            intro hmem
            rcases List.mem_cons.mp hmem with h1 | h1
            · exact hxy h1
            · exact hs h1

theorem setDedupAux_nodup : ∀ (l seen : List String), (setDedupAux seen l).Nodup := by
  intro l
  induction l with
  | nil => intro seen; simp [setDedupAux]
  | cons y ys ih =>
    intro seen
    by_cases h : y ∈ seen
    · simpa [setDedupAux, h] using ih seen
    · rw [show setDedupAux seen (y :: ys) = y :: setDedupAux (y :: seen) ys from by
        simp [setDedupAux, h]]
      refine List.nodup_cons.mpr ⟨?_, ih (y :: seen)⟩
      intro hy
      exact ((mem_setDedupAux y ys (y :: seen)).mp hy).2 (List.mem_cons_self _ _)

theorem isSixDigits_ne_marker (code : String) (hcode : isSixDigits code = true) :
    code ≠ "Firma y Sello Departamento" := by
  intro h
  rw [h] at hcode
  exact absurd hcode (by decide)

theorem Transcript.getClassSchedules_header_eval
    (decoder : String → Option (List ScheduleSlot)) (tail : List String) :
    Transcript.getClassSchedules decoder
      ("" :: "COMPROBANTE DE INSCRIPCIÓN A CURSADA" :: "12.345-6 Jane Doe" :: "Código" ::
       "Actividad" :: "Período" :: "Comisión" :: "Ubicación" :: "Aula" :: "Horario" :: tail)
      = Transcript.classSchedLoop decoder
          ("" :: "COMPROBANTE DE INSCRIPCIÓN A CURSADA" :: "12.345-6 Jane Doe" :: "Código" ::
           "Actividad" :: "Período" :: "Comisión" :: "Ubicación" :: "Aula" :: "Horario" :: tail)
          (tail.length + 1) 10 tail := rfl

theorem Transcript.classSchedLoop_record_wrap
    (decoder : String → Option (List ScheduleSlot)) (contents : List String) (fuel i : Nat)
    (code name1 name2 yq cc br room sched quarter : String) (year : Nat) (rest2 : List String)
    (hcode : isSixDigits code = true)
    (hname2 : yqParse name2 = none)
    (hyq : yqParse yq = some (quarter, year))
    (hbr : branchNormalize br ≠ "ESCUELA") :
    Transcript.classSchedLoop decoder contents (fuel + 1) i
        (code :: name1 :: name2 :: yq :: cc :: br :: room :: sched :: rest2)
      = match Transcript.classSchedLoop decoder contents fuel (i + 4 + 2 + 2) rest2 with
        | .error e => .error e
        | .ok recs =>
          .ok (⟨year, quarter, name1 ++ " " ++ name2, jsToUpperCase cc, code,
            if branchNormalize br = "SIN_DESIGNAR" then none else some (branchNormalize br),
            if sched ∈ sundaySentinels then none else decoder sched⟩ :: recs) := by
  have hmarker := isSixDigits_ne_marker code hcode
  simp only [Transcript.classSchedLoop, if_neg hmarker, hcode, if_true, hname2, hyq,
             Transcript.parseRecordTail, if_neg hbr]

theorem Transcript.classSchedLoop_record_wrap_fatal
    (decoder : String → Option (List ScheduleSlot)) (contents : List String) (fuel i : Nat)
    (code name1 name2 yq2 : String) (rest4 : List String)
    (hcode : isSixDigits code = true)
    (hname2 : yqParse name2 = none)
    (hyq2 : yqParse yq2 = none) :
    Transcript.classSchedLoop decoder contents (fuel + 1) i
        (code :: name1 :: name2 :: yq2 :: rest4)
      = .error (.classTime (some yq2) contents) := by
  have hmarker := isSixDigits_ne_marker code hcode
  simp only [Transcript.classSchedLoop, if_neg hmarker, hcode, if_true, hname2, hyq2]

/-! ## Claim theorems -/

/-- C1: for every fetched academic-history input, getPassedCourses in
both adapter variants satisfies passed ⊆ signed: every course code in the
passed collection also appears in the signed collection. -/
theorem c1_passed_subset_signed :
    (∀ (coursesHistory : List HistoryEntry) (c : String),
        c ∈ (Transcript.getPassedCourses coursesHistory).passed →
        c ∈ (Transcript.getPassedCourses coursesHistory).signed)
  ∧ (∀ (rows : List PortalHistRow) (c : String),
        c ∈ (Portal.getPassedCourses rows).passed →
        c ∈ (Portal.getPassedCourses rows).signed) := by
  constructor
  · intro coursesHistory c hc
    simp only [Transcript.getPassedCourses, List.mem_map] at hc
    obtain ⟨course, hmem, rfl⟩ := hc
    have hin : course ∈ coursesHistory := List.mem_of_mem_filter hmem
    simp only [Transcript.getPassedCourses, setDedup]
    rw [mem_setDedupAux]
    exact ⟨List.mem_map_of_mem _ hin, by simp⟩
  · intro rows c hc
    simp only [Portal.getPassedCourses] at hc ⊢
    rw [setDedup, mem_setDedupAux]
    exact ⟨List.mem_append_left _ hc, by simp⟩

theorem c1_witness :
    ("950701" ∈ (Transcript.getPassedCourses
        [⟨"950701", HType.PASSED, ⟨1, 2, 2020⟩⟩]).passed)
    ∧ "950701" ∈ (Transcript.getPassedCourses
        [⟨"950701", HType.PASSED, ⟨1, 2, 2020⟩⟩]).signed :=
  ⟨by decide,
   c1_passed_subset_signed.1 [⟨"950701", HType.PASSED, ⟨1, 2, 2020⟩⟩] "950701" (by decide)⟩

/-- C9 counterexample: the claim says the passed collection is a set with
no duplicate course code; but when the same course appears in two
approved PASSED-typed history rows, both variants return the code twice
in passed (only signed is deduplicated). -/
theorem c9_counterexample :
    (Transcript.getPassedCourses
        [⟨"950701", HType.PASSED, ⟨1, 3, 2021⟩⟩, ⟨"950701", HType.PASSED, ⟨9, 12, 2021⟩⟩]).passed
      = ["950701", "950701"]
    ∧ ¬ (Transcript.getPassedCourses
        [⟨"950701", HType.PASSED, ⟨1, 3, 2021⟩⟩,
         ⟨"950701", HType.PASSED, ⟨9, 12, 2021⟩⟩]).passed.Nodup
    ∧ (Portal.getPassedCourses
        [⟨"Final", "Aprob", "950701"⟩, ⟨"Final", "Aprob", "950701"⟩]).passed
      = ["950701", "950701"]
    ∧ ¬ (Portal.getPassedCourses
        [⟨"Final", "Aprob", "950701"⟩, ⟨"Final", "Aprob", "950701"⟩]).passed.Nodup := by
  refine ⟨by decide, by decide, by decide, by decide⟩

/-- C9 amended: the signed collection is the deduplicated one: in both
variants it never contains a duplicate course code, for every input; the
passed collection is the raw per-row list and may repeat a code. -/
theorem c9_signed_nodup :
    (∀ coursesHistory : List HistoryEntry,
        (Transcript.getPassedCourses coursesHistory).signed.Nodup)
    ∧ (∀ rows : List PortalHistRow, (Portal.getPassedCourses rows).signed.Nodup) :=
  ⟨fun _ => setDedupAux_nodup _ _, fun _ => setDedupAux_nodup _ _⟩

/-- C7 counterexample: the claim says no operation resolves with a null
placeholder when its underlying fetch or parse fails, naming getStartYear
in both variants; but both getStartYear variants catch the failure and
resolve ok none (the null placeholder) instead of rejecting. -/
theorem c7_counterexample :
    Transcript.getStartYear (.error (.fuelOut 0)) = .ok none
    ∧ Portal.getStartYear (.error (.malformed "ajax failed")) = .ok none :=
  ⟨rfl, rfl⟩

/-- C7 amended: getStartYear in both variants never rejects: on an
underlying fetch or parse failure it resolves with the null placeholder,
and the portal variant also resolves with an undefined placeholder when
the date cell has fewer than three slash-separated fields. -/
theorem c7_start_year_never_fails :
    (∀ history, ∃ v, Transcript.getStartYear history = .ok v)
  ∧ (∀ fetched, ∃ v, Portal.getStartYear fetched = .ok v)
  ∧ (∀ e, Transcript.getStartYear (.error e) = .ok none)
  ∧ (∀ e, Portal.getStartYear (.error e) = .ok none)
  ∧ (∀ s : String, (jsSplitChar s '/').length ≤ 2 →
        Portal.getStartYear (.ok s) = .ok none) := by
  refine ⟨?_, ?_, fun e => rfl, fun e => rfl, ?_⟩
  · intro history; cases history <;> exact ⟨_, rfl⟩
  · intro fetched; cases fetched <;> exact ⟨_, rfl⟩
  · intro s hs
    simp [Portal.getStartYear, List.getElem?_eq_none hs]

theorem c7_witness :
    ((jsSplitChar "2020" '/').length ≤ 2)
    ∧ Portal.getStartYear (.ok "2020") = .ok none :=
  ⟨by decide, c7_start_year_never_fails.2.2.2.2 "2020" (by decide)⟩

/-- C4: the portal getStudentId with an empty student-id element fails
with the distinguished session-expired error exactly when the
session-status element carries the session-expired text, and that failure
is not reported to the logging collaborator; any other empty-result
failure is a malformed-content failure and is reported.  The two error
constructors are distinguishable by the caller. -/
theorem c4_student_id_session_expired (studentIdText sessionDivText : String)
    (hEmpty : studentIdText = "") :
    (jsTrim sessionDivText = "La sesión ha expirado" →
       Portal.getStudentId studentIdText sessionDivText
         = (.error (.loggedOut "user has been logged out"), false))
  ∧ (jsTrim sessionDivText ≠ "La sesión ha expirado" →
       Portal.getStudentId studentIdText sessionDivText
         = (.error (.malformed "studentId missing from responseText"), true))
  ∧ (∀ m m', PortalErr.loggedOut m ≠ PortalErr.malformed m') := by
  subst hEmpty
  refine ⟨fun h => ?_, fun h => ?_, fun m m' => by simp⟩
  · simp [Portal.getStudentId, h]
  · simp [Portal.getStudentId, h]

theorem c4_witness :
    ("" = "")
    ∧ Portal.getStudentId "" " La sesión ha expirado "
        = (.error (.loggedOut "user has been logged out"), false)
    ∧ Portal.getStudentId "" "some other page text"
        = (.error (.malformed "studentId missing from responseText"), true) :=
  ⟨rfl,
   (c4_student_id_session_expired "" " La sesión ha expirado " rfl).1 (by decide),
   (c4_student_id_session_expired "" "some other page text" rfl).2.1 (by decide)⟩

/-- C5: for every answer row with a selected option, a second option
labelled no opina (case-insensitively) gives a TEXT answer valued from
the adjacent textarea (null when blank); a second option ending with a
percent sign gives a PERCENTAGE answer with the selected value parsed as
an integer (null when not parseable); any other second-option shape fails
the whole call; rows with no selection are dropped and produce no
answer. -/
theorem c5_survey_answer_schema (r : SurveyAnswerRow) (rs : List SurveyAnswerRow) :
    (r.comboValue = "" →
        Portal.getAnswersFromSurvey (r :: rs) = Portal.getAnswersFromSurvey rs)
  ∧ (r.comboValue ≠ "" → jsTrim (jsToLowerCase r.secondOption) = "no opina" →
        Portal.parseAnswerRow r
          = .ok (some ⟨r.question, .TEXT,
              if r.textareaVal = "" then .nullV else .strV r.textareaVal⟩))
  ∧ (r.comboValue ≠ "" → jsTrim (jsToLowerCase r.secondOption) ≠ "no opina" →
        jsEndsWith (jsTrim (jsToLowerCase r.secondOption)) "%" = true →
        Portal.parseAnswerRow r
          = .ok (some ⟨r.question, .PERCENTAGE,
              (match jsParseInt r.comboValue with
               | none => .nullV
               | some n => .intV n)⟩))
  ∧ (r.comboValue ≠ "" → jsTrim (jsToLowerCase r.secondOption) ≠ "no opina" →
        jsEndsWith (jsTrim (jsToLowerCase r.secondOption)) "%" = false →
        Portal.getAnswersFromSurvey (r :: rs)
          = .error (.unsupportedSecondOption (jsTrim (jsToLowerCase r.secondOption)))) := by
  refine ⟨fun h0 => ?_, fun h0 h1 => ?_, fun h0 h1 h2 => ?_, fun h0 h1 h2 => ?_⟩
  · simp [Portal.getAnswersFromSurvey, Portal.parseAnswerRow, h0]
  · simp [Portal.parseAnswerRow, h0, h1]
  · simp [Portal.parseAnswerRow, h0, h1, h2]
  · simp [Portal.getAnswersFromSurvey, Portal.parseAnswerRow, h0, h1, h2]

theorem c5_witness :
    Portal.parseAnswerRow ⟨"q1", "1", "No opina", ""⟩
      = .ok (some { question := "q1", type := .TEXT, value := .nullV })
    ∧ Portal.parseAnswerRow ⟨"q2", "75", "50%", ""⟩
      = .ok (some { question := "q2", type := .PERCENTAGE, value := .intV 75 }) := by
  constructor
  · rw [(c5_survey_answer_schema ⟨"q1", "1", "No opina", ""⟩ []).2.1 (by decide) (by decide)]
    rfl
  · rw [(c5_survey_answer_schema ⟨"q2", "75", "50%", ""⟩ []).2.2.1 (by decide) (by decide)
      (by decide)]
    rfl

/-- C8 counterexample: the claim says a second fetch of the same URL
issues no new request, for every URL; but when the first fetch resolves
the empty string, the stored value is falsy, the truthiness cache check
misses, and the second fetch issues a new request. -/
theorem c8_counterexample :
    (getPageContents (fun _ => "") [] "u").requested = true
    ∧ (getPageContents (fun _ => "") (getPageContents (fun _ => "") [] "u").cache "u").requested
        = true
    ∧ (getPageContents (fun _ => "") (getPageContents (fun _ => "") [] "u").cache "u").content
        = (getPageContents (fun _ => "") [] "u").content :=
  ⟨rfl, rfl, rfl⟩

/-- C8 amended: the per-URL memoization holds whenever the resolved
content is truthy (a nonempty response text; a pdf item array is always
truthy, so the pdf variant memoizes unconditionally): the second fetch
returns exactly the first content, leaves the cache unchanged, and issues
no request; when a text fetch resolves the empty string the cache check
misses and a new request is issued; and fetching one URL never changes
the cached content of any other URL. -/
theorem c8_cache_memoization :
    (∀ (net : String → String) (c : List (String × PageContent)) (url : String),
        jsTruthy (getPageContents net c url).content = true →
        getPageContents net (getPageContents net c url).cache url
          = ⟨(getPageContents net c url).content, (getPageContents net c url).cache, false⟩)
  ∧ (∀ (net : String → List String) (c : List (String × PageContent)) (url : String),
        fetchPdfContents net (fetchPdfContents net c url).cache url
          = ⟨(fetchPdfContents net c url).content, (fetchPdfContents net c url).cache, false⟩)
  ∧ (∀ (net : String → String) (c : List (String × PageContent)) (url url' : String),
        url' ≠ url →
        cacheLookup (getPageContents net c url).cache url' = cacheLookup c url')
  ∧ (∀ (net : String → List String) (c : List (String × PageContent)) (url url' : String),
        url' ≠ url →
        cacheLookup (fetchPdfContents net c url).cache url' = cacheLookup c url')
  ∧ fetchPageContents = getPageContents := by
  refine ⟨fun net c url h => ?_, fun net c url => ?_, fun net c url url' h => ?_,
    fun net c url url' h => ?_, rfl⟩
  · match hv : cacheLookup c url with
    | some v =>
      by_cases ht : jsTruthy v
      · simp [getPageContents, hv, ht]
      · simp only [getPageContents, hv, if_neg ht] at h ⊢
        simp [cacheLookup_store_self, h]
    | none =>
      simp only [getPageContents, hv] at h ⊢
      simp [cacheLookup_store_self, h]
  · match hv : cacheLookup c url with
    | some v =>
      by_cases ht : jsTruthy v
      · simp [fetchPdfContents, hv, ht]
      · simp only [fetchPdfContents, hv, if_neg ht]
        simp [cacheLookup_store_self, jsTruthy]
    | none =>
      simp only [fetchPdfContents, hv]
      simp [cacheLookup_store_self, jsTruthy]
  · match hv : cacheLookup c url with
    | some v =>
      by_cases ht : jsTruthy v
      · simp [getPageContents, hv, ht]
      · simp [getPageContents, hv, ht, cacheLookup_store_other c url url' _ h]
    | none => simp [getPageContents, hv, cacheLookup_store_other c url url' _ h]
  · match hv : cacheLookup c url with
    | some v =>
      by_cases ht : jsTruthy v
      · simp [fetchPdfContents, hv, ht]
      · simp [fetchPdfContents, hv, ht, cacheLookup_store_other c url url' _ h]
    | none => simp [fetchPdfContents, hv, cacheLookup_store_other c url url' _ h]

theorem c8_witness :
    (jsTruthy (getPageContents (fun _ => "contents of u") [] "u").content = true
      ∧ getPageContents (fun _ => "contents of u")
          (getPageContents (fun _ => "contents of u") [] "u").cache "u"
          = ⟨(getPageContents (fun _ => "contents of u") [] "u").content,
             (getPageContents (fun _ => "contents of u") [] "u").cache, false⟩)
    ∧ cacheLookup (getPageContents (fun _ => "contents of u") [] "u").cache "v"
        = cacheLookup [] "v" :=
  ⟨⟨by decide, c8_cache_memoization.1 (fun _ => "contents of u") [] "u" (by decide)⟩,
   c8_cache_memoization.2.2.1 (fun _ => "contents of u") [] "u" "v" (by decide)⟩

/-- C2: for each of the four Sunday/undefined sentinel schedule strings,
the transcript getClassSchedules sets the record schedules field to null
(none) rather than any partial list of slots, whatever the decoder would
have produced. -/
theorem c2_sunday_sentinels_null
    (decoder : String → Option (List ScheduleSlot)) (schedulesStr : String)
    (hs : schedulesStr ∈ sundaySentinels) :
    Transcript.getClassSchedules decoder
        ("" :: "COMPROBANTE DE INSCRIPCIÓN A CURSADA" :: "12.345-6 Jane Doe" :: "Código" ::
         "Actividad" :: "Período" :: "Comisión" :: "Ubicación" :: "Aula" :: "Horario" ::
         "950701" :: "Fisica I" :: "1er Cuat 2021" :: "Z1154" :: "CAMPUS" :: "2" ::
         schedulesStr :: ["Firma y Sello Departamento"])
      = .ok [⟨2021, "1C", "Fisica I", "Z1154", "950701", some "CAMPUS", none⟩] := by
  simp only [sundaySentinels, List.mem_cons, List.not_mem_nil, or_false] at hs
  rcases hs with rfl | rfl | rfl | rfl <;> rfl

theorem c2_witness :
    ("Sin definir" ∈ sundaySentinels)
    ∧ Transcript.getClassSchedules (fun _ => some [])
        ("" :: "COMPROBANTE DE INSCRIPCIÓN A CURSADA" :: "12.345-6 Jane Doe" :: "Código" ::
         "Actividad" :: "Período" :: "Comisión" :: "Ubicación" :: "Aula" :: "Horario" ::
         "950701" :: "Fisica I" :: "1er Cuat 2021" :: "Z1154" :: "CAMPUS" :: "2" ::
         "Sin definir" :: ["Firma y Sello Departamento"])
      = .ok [⟨2021, "1C", "Fisica I", "Z1154", "950701", some "CAMPUS", none⟩] :=
  ⟨by decide, c2_sunday_sentinels_null (fun _ => some []) "Sin definir" (by decide)⟩

/-- C3: in the transcript getClassSchedules, when the token after the
course-name token fails the year/quarter grammar it is appended to the
course name with a space and the next token is consumed as the
year/quarter field, with every later field of the record read at the
correct offset; and a second consecutive grammar failure is fatal. -/
theorem c3_course_name_wrap
    (decoder : String → Option (List ScheduleSlot))
    (code name1 name2 yq cc br room sched quarter : String) (year : Nat)
    (hcode : isSixDigits code = true)
    (hname2 : yqParse name2 = none)
    (hyq : yqParse yq = some (quarter, year))
    (hbr : branchNormalize br ≠ "ESCUELA") :
    Transcript.getClassSchedules decoder
        ("" :: "COMPROBANTE DE INSCRIPCIÓN A CURSADA" :: "12.345-6 Jane Doe" :: "Código" ::
         "Actividad" :: "Período" :: "Comisión" :: "Ubicación" :: "Aula" :: "Horario" ::
         code :: name1 :: name2 :: yq :: cc :: br :: room :: sched ::
         ["Firma y Sello Departamento"])
      = .ok [⟨year, quarter, name1 ++ " " ++ name2, jsToUpperCase cc, code,
          if branchNormalize br = "SIN_DESIGNAR" then none else some (branchNormalize br),
          if sched ∈ sundaySentinels then none else decoder sched⟩]
  ∧ (∀ yq2, yqParse yq2 = none →
      Transcript.getClassSchedules decoder
        ("" :: "COMPROBANTE DE INSCRIPCIÓN A CURSADA" :: "12.345-6 Jane Doe" :: "Código" ::
         "Actividad" :: "Período" :: "Comisión" :: "Ubicación" :: "Aula" :: "Horario" ::
         code :: name1 :: name2 :: yq2 :: cc :: br :: room :: sched ::
         ["Firma y Sello Departamento"])
      = .error (.classTime (some yq2)
          ("" :: "COMPROBANTE DE INSCRIPCIÓN A CURSADA" :: "12.345-6 Jane Doe" :: "Código" ::
           "Actividad" :: "Período" :: "Comisión" :: "Ubicación" :: "Aula" :: "Horario" ::
           code :: name1 :: name2 :: yq2 :: cc :: br :: room :: sched ::
           ["Firma y Sello Departamento"]))) := by
  constructor
  · rw [Transcript.getClassSchedules_header_eval]
    have hlen : (code :: name1 :: name2 :: yq :: cc :: br :: room :: sched ::
        ["Firma y Sello Departamento"] : List String).length = 9 := rfl
    rw [hlen]
    rw [Transcript.classSchedLoop_record_wrap decoder _ 9 10 code name1 name2 yq cc br room
        sched quarter year ["Firma y Sello Departamento"] hcode hname2 hyq hbr]
    have hfin : Transcript.classSchedLoop decoder
        ("" :: "COMPROBANTE DE INSCRIPCIÓN A CURSADA" :: "12.345-6 Jane Doe" :: "Código" ::
         "Actividad" :: "Período" :: "Comisión" :: "Ubicación" :: "Aula" :: "Horario" ::
         code :: name1 :: name2 :: yq :: cc :: br :: room :: sched ::
         ["Firma y Sello Departamento"]) 9 (10 + 4 + 2 + 2) ["Firma y Sello Departamento"]
        = .ok [] := rfl
    rw [hfin]
  · intro yq2 hyq2
    rw [Transcript.getClassSchedules_header_eval]
    have hlen : (code :: name1 :: name2 :: yq2 :: cc :: br :: room :: sched ::
        ["Firma y Sello Departamento"] : List String).length = 9 := rfl
    rw [hlen]
    exact Transcript.classSchedLoop_record_wrap_fatal decoder _ 9 10 code name1 name2 yq2
        (cc :: br :: room :: sched :: ["Firma y Sello Departamento"]) hcode hname2 hyq2

theorem c3_witness :
    Transcript.getClassSchedules (fun _ => none)
        ("" :: "COMPROBANTE DE INSCRIPCIÓN A CURSADA" :: "12.345-6 Jane Doe" :: "Código" ::
         "Actividad" :: "Período" :: "Comisión" :: "Ubicación" :: "Aula" :: "Horario" ::
         "950701" :: "Análisis Matemático II" :: "(Plan 2008)" :: "1er Cuat 2021" ::
         "z1154" :: "Campus" :: "2" :: "Lu(n)1:5" :: ["Firma y Sello Departamento"])
      = .ok [⟨2021, "1C", "Análisis Matemático II (Plan 2008)", "Z1154", "950701",
          some "CAMPUS", none⟩] := by
  rw [(c3_course_name_wrap (fun _ => none) "950701" "Análisis Matemático II" "(Plan 2008)"
      "1er Cuat 2021" "z1154" "Campus" "2" "Lu(n)1:5" "1C" 2021
      (by decide) (by decide) (by decide) (by decide)).1]
  rfl

/-- C10: a fetched transcript whose token sequence is exactly one empty
token resolves with the empty list instead of failing header validation;
any other content that does not begin with the fixed two-token header
fails the call. -/
theorem c10_empty_pdf_and_header_gate :
    (∀ decoder : String → Option (List ScheduleSlot),
        Transcript.getClassSchedules decoder [""] = .ok [])
  ∧ (∀ (decoder : String → Option (List ScheduleSlot)) (contents : List String),
        contents ≠ [""] →
        (¬ ∃ rest, contents = "" :: "COMPROBANTE DE INSCRIPCIÓN A CURSADA" :: rest) →
        ∃ e, Transcript.getClassSchedules decoder contents = .error e) := by
  constructor
  · intro decoder; rfl
  · intro decoder contents hne hbad
    match contents with
    | [] =>
      exact ⟨.invalidContents 0 [], rfl⟩
    | [c0] =>
      have hc0 : ¬ (c0 = "") := fun h => hne (by rw [h])
      refine ⟨.invalidContents 0 [c0], ?_⟩
      simp [Transcript.getClassSchedules, validateExpectedContents, hc0]
    | c0 :: c1 :: cs =>
      by_cases hc0 : c0 = ""
      · subst hc0
        by_cases hc1 : c1 = "COMPROBANTE DE INSCRIPCIÓN A CURSADA"
        · exact absurd ⟨cs, by rw [hc1]⟩ hbad
        · refine ⟨.invalidContents 1 ("" :: c1 :: cs), ?_⟩
          simp [Transcript.getClassSchedules, validateExpectedContents, hc1]
      · refine ⟨.invalidContents 0 (c0 :: c1 :: cs), ?_⟩
        simp [Transcript.getClassSchedules, validateExpectedContents, hc0]

theorem c10_witness :
    (["plan de estudios"] ≠ ([""] : List String))
    ∧ ∃ e, Transcript.getClassSchedules (fun _ => none) ["plan de estudios"] = .error e :=
  ⟨by decide,
   c10_empty_pdf_and_header_gate.2 (fun _ => none) ["plan de estudios"] (by decide)
     (by rintro ⟨rest, h⟩; simp at h)⟩

/-- C6 counterexample: the claim says the expect failure identifies the
expected literal; but two expect calls that differ only in the expected
literal at the mismatch position throw identical errors (index plus raw
contents), so the error cannot identify the expected literal. -/
theorem c6_counterexample :
    validateExpectedContents ["a", "x"] ["a", "b"] 0 ["a", "x"]
      = validateExpectedContents ["a", "x"] ["a", "c"] 0 ["a", "x"]
    ∧ validateExpectedContents ["a", "x"] ["a", "b"] 0 ["a", "x"]
      = .error (.invalidContents 1 ["a", "x"]) :=
  ⟨rfl, rfl⟩

/-- C6 amended: expect consumes exactly the expected sequence on success;
on the first mismatching position it stops and fails with an error
carrying that position index and the whole token stream (from which the
actual token is recoverable), but not the expected literal; and the
enclosing getClassSchedules call propagates the error, returning no
records. -/
theorem c6_expect_first_mismatch :
    (∀ (contents : List String) (i : Nat) (expected rest : List String),
        validateExpectedContents contents expected i (expected ++ rest)
          = .ok (i + expected.length, rest))
  ∧ (∀ (contents : List String) (i : Nat) (pre : List String) (t e : String)
        (ts es : List String), t ≠ e →
        validateExpectedContents contents (pre ++ e :: es) i (pre ++ t :: ts)
          = .error (.invalidContents (i + pre.length) contents))
  ∧ (∀ (decoder : String → Option (List ScheduleSlot)) (contents : List String) (e : PdfErr),
        contents ≠ [""] →
        validateExpectedContents contents ["", "COMPROBANTE DE INSCRIPCIÓN A CURSADA"] 0
          contents = .error e →
        Transcript.getClassSchedules decoder contents = .error e) := by
  refine ⟨?_, ?_, ?_⟩
  · intro contents i expected
    induction expected generalizing i with
    | nil => intro rest; simp [validateExpectedContents]
    | cons x xs ih =>
      intro rest
      have step : validateExpectedContents contents (x :: xs) i ((x :: xs) ++ rest)
          = validateExpectedContents contents xs (i + 1) (xs ++ rest) := by
        simp [validateExpectedContents]
      rw [step, ih (i + 1)]
      have harith : i + 1 + xs.length = i + (x :: xs).length := by
        simp [List.length_cons]; omega
      rw [harith]
  · intro contents i pre t e ts es hne
    induction pre generalizing i with
    | nil =>
      simp [validateExpectedContents, hne]
    | cons p ps ih =>
      have step : validateExpectedContents contents ((p :: ps) ++ e :: es) i
          ((p :: ps) ++ t :: ts)
          = validateExpectedContents contents (ps ++ e :: es) (i + 1) (ps ++ t :: ts) := by
        simp [validateExpectedContents]
      rw [step, ih (i + 1)]
      have harith : i + 1 + ps.length = i + (p :: ps).length := by
        simp [List.length_cons]; omega
      rw [harith]
  · intro decoder contents e hne hval
    simp [Transcript.getClassSchedules, hne, hval]

theorem c6_witness :
    ("zzz" ≠ "Actividad")
    ∧ validateExpectedContents ["Código", "zzz"] ["Código", "Actividad"] 3 ["Código", "zzz"]
      = .error (.invalidContents 4 ["Código", "zzz"]) := by
  refine ⟨by decide, ?_⟩
  have h := c6_expect_first_mismatch.2.1 ["Código", "zzz"] 3 ["Código"] "zzz" "Actividad"
      [] [] (by decide)
  simpa using h
